import Mathlib

/-!
Verification of the "Seventeen" timing game core
(`src/app/page.tsx`, `src/ai/flows/generate-rage-message.ts`, and the
Firestore-backed variant whose full page source is embedded in
`docs/blueprint.md`).

Floating-point numbers of the source are embedded as rationals (ℚ); the
decimal literals of the source are exact in ℚ.  `Math.random()` draws are
passed in as explicit parameters in `[0, 1)`.  The asynchronous external
text-generation call is embedded as an `Option GenerateRageMessageOutput`
parameter of the stop operation: `some resp` is a successful response,
`none` a failed call (any transport/auth failure).
-/

/-- `Math.abs` on rationals: `-q` for negative `q`, else `q`. -/
def ratAbs (q : ℚ) : ℚ := if q < 0 then -q else q

/-- Output shape of the external text generator
(`GenerateRageMessageOutputSchema` in `generate-rage-message.ts`);
the optional fields are embedded as strings, with `""` for absent. -/
structure GenerateRageMessageOutput where
  message : String
  secondaryTaunt : String
  socialProofLine : String
deriving DecidableEq, Repr

/-- The game's target duration: `TARGET_TIME = 17.0` in the Firestore
variant, the literal `17` in `page.tsx`. -/
def TARGET_TIME : ℚ := 17

/-- `getFallbackMessage` from `page.tsx` lines 26–46: the deterministic
local classifier used when the AI call fails. -/
def getFallbackMessage (delta : ℚ) : GenerateRageMessageOutput :=
  let abs := ratAbs delta
  let message : String :=
    if abs < 0.02 then "PERFECT"
    else if abs < 0.1 then "SO CLOSE"
    else if abs < 0.3 then (if delta > 0 then "TOO LATE" else "TOO EARLY")
    else if abs < 0.6 then "ALMOST"
    else "NOT EVEN CLOSE"
  let socialProofLine : String :=
    if message = "PERFECT" then "You are in the top 0.01%"
    else if abs < 0.5 then "93% fail between 16.5–17.5"
    else "Most people struggle with timing."
  { message := message, secondaryTaunt := "", socialProofLine := socialProofLine }

/-- `manipulateTime` from `page.tsx` lines 75–83.  The two `Math.random()`
draws guarding jitter and skip and the draw scaled into the jitter are the
parameters `r1`, `r3`, `r2`; each models a value in `[0, 1)`. -/
def manipulateTime (t r1 r2 r3 : ℚ) : ℚ :=
  let speed : ℚ := if t > 10 then 1 + (t - 10) * 0.015 else 1
  let jitter : ℚ := if r1 < 0.02 then r2 * 0.03 else 0
  let skip : ℚ := if r3 < 0.005 then 0.05 else 0
  t * speed + jitter + skip

/-- A leaderboard entry of `page.tsx` (`type Score`). -/
structure Score where
  finalTime : ℚ
  delta : ℚ
deriving DecidableEq, Repr

/-- The ordering used by the leaderboard sort in `stopTimer`
(`page.tsx` line 126: comparator `Math.abs(a.delta) - Math.abs(b.delta)`). -/
def scoreLe (a b : Score) : Prop := ratAbs a.delta ≤ ratAbs b.delta

instance : DecidableRel scoreLe :=
  fun a b => inferInstanceAs (Decidable (ratAbs a.delta ≤ ratAbs b.delta))

instance : IsTotal Score scoreLe :=
  ⟨fun a b => le_total (ratAbs a.delta) (ratAbs b.delta)⟩

instance : IsTrans Score scoreLe :=
  ⟨fun _ _ _ => le_trans⟩

/-- The leaderboard update of `stopTimer` (`page.tsx` lines 123–130):
append the new score, sort ascending by `|delta|` (JavaScript
`Array.prototype.sort` is stable, embedded as a stable insertion sort),
keep the first 5. -/
def record (prevScores : List Score) (newScore : Score) : List Score :=
  (List.insertionSort scoreLe (prevScores ++ [newScore])).take 5

/-- The game states of `page.tsx` (`type GameState`). -/
inductive GameState where
  | idle
  | playing
  | stopped
deriving DecidableEq, Repr

/-- The result record of `page.tsx` (`type Result`); `aiResponse = none`
is the cleared result. -/
structure Result where
  finalTime : ℚ
  delta : ℚ
  aiResponse : Option GenerateRageMessageOutput
deriving DecidableEq, Repr

/-- The React state of `page.tsx`'s `Home` component that the game logic
reads and writes: `gameState`, `displayedTime`, `result`, `scores`. -/
structure AppState where
  gameState : GameState
  displayedTime : ℚ
  result : Result
  scores : List Score
deriving DecidableEq, Repr

/-- One animation tick of `gameLoop` (`page.tsx` lines 85–97): the
displayed time becomes `manipulateTime elapsed`. -/
def gameLoopTick (st : AppState) (elapsed r1 r2 r3 : ℚ) : AppState :=
  { st with displayedTime := manipulateTime elapsed r1 r2 r3 }

/-- `stopTimer` from `page.tsx` lines 112–165, with the awaited AI call
embedded as the `ai` parameter (`none` = the call threw).  Guarded: when
the state is not `playing` it returns the state unchanged.  Otherwise it
captures `finalTime = displayedTime`, sets `delta = finalTime - 17`,
updates the leaderboard via `record`, and sets the result, falling back
to `getFallbackMessage delta` when the AI call failed. -/
def stopTimer (st : AppState) (ai : Option GenerateRageMessageOutput) : AppState :=
  if st.gameState = GameState.playing then
    let finalTime := st.displayedTime
    let delta := finalTime - 17
    let newScores := record st.scores { finalTime := finalTime, delta := delta }
    let aiResponse : Option GenerateRageMessageOutput :=
      match ai with
      | some resp => some resp
      | none => some (getFallbackMessage delta)
    { gameState := GameState.stopped,
      displayedTime := st.displayedTime,
      result := { finalTime := finalTime, delta := delta, aiResponse := aiResponse },
      scores := newScores }
  else st

/-- An attempt document of the Firestore variant (`type Attempt` in
`docs/blueprint.md`). -/
structure Attempt where
  userId : String
  stoppedTime : ℚ
  deltaFromTarget : ℚ
  timestamp : String
  deviceType : String
deriving DecidableEq, Repr

/-- A user profile document of the Firestore variant
(`type UserProfile` in `docs/blueprint.md`). -/
structure UserProfile where
  displayName : Option String
  personalBestAccuracy : Option ℚ
  totalAttempts : Option ℕ
deriving DecidableEq, Repr

/-- The user-document merge write issued by the Firestore variant's
`stopTimer` (`userUpdateData`). -/
structure UserUpdate where
  id : String
  totalAttempts : ℕ
  lastPlayedTime : String
  personalBestAccuracy : ℚ
deriving DecidableEq, Repr

/-- A shared leaderboard row of the Firestore variant
(`type LeaderboardEntry` in `docs/blueprint.md`), keyed by `userId`. -/
structure LeaderboardEntry where
  userId : String
  userName : String
  stoppedTime : ℚ
  deltaFromTarget : ℚ
  timestamp : String
deriving DecidableEq, Repr

/-- The outward effects the Firestore variant's handlers issue:
the per-user attempt write, the user-document merge, the shared
leaderboard write, and the external text-generation request. -/
inductive FSEffect where
  | addAttempt (a : Attempt)
  | setUserDoc (u : UserUpdate)
  | setLeaderboard (e : LeaderboardEntry)
  | callAI (delta : ℚ)
deriving DecidableEq, Repr

/-- Whether an effect writes the shared leaderboard. -/
def isLeaderboardWrite : FSEffect → Bool
  | FSEffect.setLeaderboard _ => true
  | _ => false

/-- Whether an effect records an attempt in the per-user history. -/
def isAttemptWrite : FSEffect → Bool
  | FSEffect.addAttempt _ => true
  | _ => false

/-- Whether an effect invokes the external text-generation resolver. -/
def isCallAI : FSEffect → Bool
  | FSEffect.callAI _ => true
  | _ => false

/-- The first user-document write among a list of effects. -/
def userDocOf : List FSEffect → Option UserUpdate
  | [] => none
  | FSEffect.setUserDoc u :: _ => some u
  | _ :: es => userDocOf es

/-- `absDelta < (userProfile?.personalBestAccuracy ?? Infinity)` as the
source computes it (`isNewPersonalBest`): `true` when there is no stored
best (anything beats `Infinity`), else the comparison. -/
def isNewBest (old : Option ℚ) (absDelta : ℚ) : Bool :=
  match old with
  | none => true
  | some b => decide (absDelta < b)

/-- `Math.min(userProfile?.personalBestAccuracy ?? Infinity, absDelta)`:
the stored personal best after an attempt with accuracy `absDelta`,
given the previous stored value (`none` = absent = `Infinity`). -/
def updatedBest (old : Option ℚ) (absDelta : ℚ) : ℚ :=
  match old with
  | none => absDelta
  | some b => min b absDelta

/-- The personal best stored after a sequence of attempts with the given
accuracies, starting from no stored value. -/
def bestAfter (ds : List ℚ) : Option ℚ :=
  ds.foldl (fun o d => some (updatedBest o d)) none

/-- `absDelta < (userProfile?.personalBestAccuracy ?? Infinity)`:
the new attempt strictly lowers the stored best accuracy. -/
def strictlyImproves (old : Option ℚ) (absDelta : ℚ) : Prop :=
  match old with
  | none => True
  | some b => absDelta < b

/-- `userProfile?.displayName || userName || 'Anonymous'` (JavaScript
`||` treats the empty string as absent). -/
def currentNameOf (displayName : Option String) (userName : String) : String :=
  let d := displayName.getD ""
  if d ≠ "" then d else if userName ≠ "" then userName else "Anonymous"

/-- `parseFloat(delta.toFixed(4))`: rounding to 4 decimal places, ties
toward the larger value, as `Number.prototype.toFixed` specifies. -/
def toFixed4 (q : ℚ) : ℚ := ((round (q * 10000) : ℤ) : ℚ) / 10000

/-- The React state of the Firestore variant's `Home` component read and
written by its game handlers. -/
structure FSState where
  gameState : GameState
  displayedTime : ℚ
  result : Result
  isAiGenerating : Bool
deriving DecidableEq, Repr

/-- `autoStopTimer` from the Firestore variant in `docs/blueprint.md`:
the hard-cutoff exit taken when the true elapsed time reaches 18 s.  It
stops the round with the fixed canned penalty result and issues no
effects (in particular no text-generation request). -/
def autoStopTimer (st : FSState) : FSState × List FSEffect :=
  ({ gameState := GameState.stopped,
     displayedTime := st.displayedTime,
     result :=
       { finalTime := 18,
         delta := 18 - TARGET_TIME,
         aiResponse := some
           { message := "YOU DIDN\x27T EVEN TRY",
             secondaryTaunt := "The timer ran out at 18 seconds.",
             socialProofLine := "You have to actually click to play." } },
     isAiGenerating := false }, [])

/-- One animation tick of the Firestore variant's `gameLoop`: when the
true elapsed time has reached 18 s it auto-stops, otherwise it displays
the elapsed time and continues. -/
def gameLoopFS (st : FSState) (elapsed : ℚ) : FSState × List FSEffect :=
  if elapsed ≥ 18 then autoStopTimer st
  else ({ st with displayedTime := elapsed }, [])

/-- `stopTimer` of the Firestore variant in `docs/blueprint.md`, with the
signed-in user's id, the loaded profile document, the name-input state,
the wall-clock timestamp and the awaited AI call passed in.  Returns the
new component state and the external effects issued, in program order. -/
def stopTimerFS (st : FSState) (userId : String) (profile : Option UserProfile)
    (userName : String) (now : String) (ai : Option GenerateRageMessageOutput) :
    FSState × List FSEffect :=
  if st.gameState = GameState.playing then
    let finalTime := st.displayedTime
    let delta := finalTime - TARGET_TIME
    let absDelta := ratAbs delta
    let oldPersonalBest := profile.bind (·.personalBestAccuracy)
    let isNewPersonalBest : Bool := isNewBest oldPersonalBest absDelta
    let newAttempt : Attempt :=
      { userId := userId, stoppedTime := finalTime, deltaFromTarget := absDelta,
        timestamp := now, deviceType := "desktop" }
    let newTotalAttempts := (profile.bind (·.totalAttempts)).getD 0 + 1
    let userUpdate : UserUpdate :=
      { id := userId, totalAttempts := newTotalAttempts, lastPlayedTime := now,
        personalBestAccuracy := updatedBest oldPersonalBest absDelta }
    let currentUserName := currentNameOf (profile.bind (·.displayName)) userName
    let lbEffects : List FSEffect :=
      if currentUserName ≠ "Anonymous" ∧ isNewPersonalBest = true then
        [FSEffect.setLeaderboard
          { userId := userId, userName := currentUserName, stoppedTime := finalTime,
            deltaFromTarget := absDelta, timestamp := now }]
      else []
    let aiResponse : Option GenerateRageMessageOutput :=
      match ai with
      | some resp => some resp
      | none => some (getFallbackMessage delta)
    ({ gameState := GameState.stopped,
       displayedTime := st.displayedTime,
       result := { finalTime := finalTime, delta := delta, aiResponse := aiResponse },
       isAiGenerating := false },
     [FSEffect.addAttempt newAttempt, FSEffect.setUserDoc userUpdate] ++ lbEffects ++
       [FSEffect.callAI (toFixed4 delta)])
  else (st, [])

/-! ## Helper lemmas -/

theorem ratAbs_eq_abs (q : ℚ) : ratAbs q = |q| := by
  unfold ratAbs
  rcases lt_or_le q 0 with h | h
  · rw [if_pos h, abs_of_neg h]
  · rw [if_neg (not_lt.mpr h), abs_of_nonneg h]

theorem getFallbackMessage_message (delta : ℚ) :
    (getFallbackMessage delta).message =
      if ratAbs delta < 0.02 then "PERFECT"
      else if ratAbs delta < 0.1 then "SO CLOSE"
      else if ratAbs delta < 0.3 then (if 0 < delta then "TOO LATE" else "TOO EARLY")
      else if ratAbs delta < 0.6 then "ALMOST"
      else "NOT EVEN CLOSE" := rfl

/-! ## The claims -/

/-- C1: the local classifier assigns the message by `|delta|` with ordered,
first-match-wins thresholds (`< 0.02` PERFECT, `< 0.10` SO CLOSE, `< 0.30`
TOO LATE for positive / TOO EARLY for negative delta, `< 0.60` ALMOST,
otherwise NOT EVEN CLOSE), totally partitioning `|delta| ∈ [0, ∞)`; the
deltas 0.0, 0.019, 0.09, ±0.29, 0.59, 1.0 classify as PERFECT, PERFECT,
SO CLOSE, TOO LATE/TOO EARLY, ALMOST, NOT EVEN CLOSE respectively. -/
theorem fallback_message_thresholds :
    (∀ delta : ℚ,
      (|delta| < 0.02 → (getFallbackMessage delta).message = "PERFECT") ∧
      (0.02 ≤ |delta| → |delta| < 0.1 →
        (getFallbackMessage delta).message = "SO CLOSE") ∧
      (0.1 ≤ |delta| → |delta| < 0.3 →
        ((0 < delta → (getFallbackMessage delta).message = "TOO LATE") ∧
         (delta < 0 → (getFallbackMessage delta).message = "TOO EARLY"))) ∧
      (0.3 ≤ |delta| → |delta| < 0.6 →
        (getFallbackMessage delta).message = "ALMOST") ∧
      (0.6 ≤ |delta| →
        (getFallbackMessage delta).message = "NOT EVEN CLOSE")) ∧
    (getFallbackMessage 0).message = "PERFECT" ∧
    (getFallbackMessage 0.019).message = "PERFECT" ∧
    (getFallbackMessage 0.09).message = "SO CLOSE" ∧
    (getFallbackMessage 0.29).message = "TOO LATE" ∧
    (getFallbackMessage (-0.29)).message = "TOO EARLY" ∧
    (getFallbackMessage 0.59).message = "ALMOST" ∧
    (getFallbackMessage 1).message = "NOT EVEN CLOSE" := by
  have core : ∀ delta : ℚ,
      (|delta| < 0.02 → (getFallbackMessage delta).message = "PERFECT") ∧
      (0.02 ≤ |delta| → |delta| < 0.1 →
        (getFallbackMessage delta).message = "SO CLOSE") ∧
      (0.1 ≤ |delta| → |delta| < 0.3 →
        ((0 < delta → (getFallbackMessage delta).message = "TOO LATE") ∧
         (delta < 0 → (getFallbackMessage delta).message = "TOO EARLY"))) ∧
      (0.3 ≤ |delta| → |delta| < 0.6 →
        (getFallbackMessage delta).message = "ALMOST") ∧
      (0.6 ≤ |delta| →
        (getFallbackMessage delta).message = "NOT EVEN CLOSE") := by
    intro delta
    rw [getFallbackMessage_message, ratAbs_eq_abs]
    refine ⟨fun h1 => ?_, fun h1 h2 => ?_, fun h1 h2 => ?_, fun h1 h2 => ?_,
      fun h1 => ?_⟩
    · rw [if_pos h1]
    · rw [if_neg (not_lt.mpr h1), if_pos h2]
    · have n1 : ¬ |delta| < 0.02 := not_lt.mpr (le_trans (by norm_num) h1)
      have n2 : ¬ |delta| < 0.1 := not_lt.mpr h1
      rw [if_neg n1, if_neg n2, if_pos h2]
      exact ⟨fun hpos => by rw [if_pos hpos],
        fun hneg => by rw [if_neg (not_lt.mpr hneg.le)]⟩
    · have n1 : ¬ |delta| < 0.02 := not_lt.mpr (le_trans (by norm_num) h1)
      have n2 : ¬ |delta| < 0.1 := not_lt.mpr (le_trans (by norm_num) h1)
      have n3 : ¬ |delta| < 0.3 := not_lt.mpr h1
      rw [if_neg n1, if_neg n2, if_neg n3, if_pos h2]
    · have n1 : ¬ |delta| < 0.02 := not_lt.mpr (le_trans (by norm_num) h1)
      have n2 : ¬ |delta| < 0.1 := not_lt.mpr (le_trans (by norm_num) h1)
      have n3 : ¬ |delta| < 0.3 := not_lt.mpr (le_trans (by norm_num) h1)
      have n4 : ¬ |delta| < 0.6 := not_lt.mpr h1
      rw [if_neg n1, if_neg n2, if_neg n3, if_neg n4]
  refine ⟨core, ?_, ?_, ?_, ?_, ?_, ?_, ?_⟩
  · exact (core 0).1 (by norm_num)
  · exact (core 0.019).1 (by rw [abs_of_nonneg (by norm_num)]; norm_num)
  · exact (core 0.09).2.1 (by rw [abs_of_nonneg (by norm_num)]; norm_num)
      (by rw [abs_of_nonneg (by norm_num)]; norm_num)
  · exact ((core 0.29).2.2.1 (by rw [abs_of_nonneg (by norm_num)]; norm_num)
      (by rw [abs_of_nonneg (by norm_num)]; norm_num)).1 (by norm_num)
  · exact ((core (-0.29)).2.2.1 (by rw [abs_of_neg (by norm_num)]; norm_num)
      (by rw [abs_of_neg (by norm_num)]; norm_num)).2 (by norm_num)
  · exact (core 0.59).2.2.2.1 (by rw [abs_of_nonneg (by norm_num)]; norm_num)
      (by rw [abs_of_nonneg (by norm_num)]; norm_num)
  · exact (core 1).2.2.2.2 (by rw [abs_of_nonneg (by norm_num)]; norm_num)

/-- C2: for `t ≥ 0` and random draws in `[0, 1)`, `manipulateTime` returns
`t * speed + jitter + skip` with `speed = 1` plus, only when `t > 10`,
`(t - 10) * 0.015`; the jitter lies in `[0, 0.03)` exactly when its guard
draw is below `0.02` (else it is `0`), and the skip is the fixed `0.05`
exactly when its guard draw is below `0.005` (else `0`). -/
theorem manipulateTime_formula (t r1 r2 r3 : ℚ) (ht : 0 ≤ t)
    (hr2a : 0 ≤ r2) (hr2b : r2 < 1) :
    ∃ jitter skip : ℚ,
      manipulateTime t r1 r2 r3 =
        t * (1 + (if 10 < t then (t - 10) * 0.015 else 0)) + jitter + skip ∧
      (r1 < 0.02 → 0 ≤ jitter ∧ jitter < 0.03) ∧
      (¬ r1 < 0.02 → jitter = 0) ∧
      (r3 < 0.005 → skip = 0.05) ∧
      (¬ r3 < 0.005 → skip = 0) := by
  refine ⟨if r1 < 0.02 then r2 * 0.03 else 0, if r3 < 0.005 then 0.05 else 0,
    ?_, fun h => ?_, fun h => ?_, fun h => ?_, fun h => ?_⟩
  · simp only [manipulateTime]
    rcases lt_or_le 10 t with h | h
    · rw [if_pos h, if_pos h]; try ring
    · rw [if_neg (not_lt.mpr h), if_neg (not_lt.mpr h)]; try ring
  · rw [if_pos h]
    constructor
    · exact mul_nonneg hr2a (by norm_num)
    · nlinarith
  · rw [if_neg h]
  · rw [if_pos h]
  · rw [if_neg h]

/-- C2 witness: the formula at `t = 12`, draws `0.01`, `0.5`, `0.5`. -/
theorem manipulateTime_formula_witness :
    ∃ jitter skip : ℚ,
      manipulateTime 12 0.01 0.5 0.5 =
        12 * (1 + (if (10 : ℚ) < 12 then ((12 : ℚ) - 10) * 0.015 else 0)) + jitter + skip ∧
      ((0.01 : ℚ) < 0.02 → 0 ≤ jitter ∧ jitter < 0.03) ∧
      (¬ (0.01 : ℚ) < 0.02 → jitter = 0) ∧
      ((0.5 : ℚ) < 0.005 → skip = 0.05) ∧
      (¬ (0.5 : ℚ) < 0.005 → skip = 0) :=
  manipulateTime_formula 12 0.01 0.5 0.5 (by norm_num) (by norm_num) (by norm_num)

/-- C3: with jitter and skip disabled (their guard draws at or above the
trigger probabilities, so both contribute `0`), the perturbed time never
falls below the unaccelerated baseline `t * 1` for `t ≥ 0`. -/
theorem manipulateTime_ge_baseline (t r1 r2 r3 : ℚ) (ht : 0 ≤ t)
    (h1 : 0.02 ≤ r1) (h3 : 0.005 ≤ r3) :
    t * 1 ≤ manipulateTime t r1 r2 r3 := by
  simp only [manipulateTime]
  rw [if_neg (not_lt.mpr h1), if_neg (not_lt.mpr h3)]
  rcases lt_or_le 10 t with h | h
  · rw [if_pos h]; nlinarith
  · rw [if_neg (not_lt.mpr h)]; nlinarith

/-- C3 witness: the baseline bound at `t = 5` with disabled draws. -/
theorem manipulateTime_ge_baseline_witness :
    (5 : ℚ) * 1 ≤ manipulateTime 5 0.5 0.7 0.5 :=
  manipulateTime_ge_baseline 5 0.5 0.7 0.5 (by norm_num) (by norm_num) (by norm_num)

theorem filter_orderedInsert_eq (c : ℚ) (s : Score) (hs : ratAbs s.delta = c)
    (l : List Score) :
    (List.orderedInsert scoreLe s l).filter (fun x => ratAbs x.delta = c) =
      s :: l.filter (fun x => ratAbs x.delta = c) := by
  induction l with
  | nil => simp [List.orderedInsert, hs]
  | cons b l ih =>
    rw [List.orderedInsert]
    by_cases h : scoreLe s b
    · rw [if_pos h]
      simp [List.filter_cons, hs]
    · rw [if_neg h]
      have h' : ¬ ratAbs s.delta ≤ ratAbs b.delta := h
      have hbne : ¬ ratAbs b.delta = c := by
        rw [← hs]; exact ne_of_lt (lt_of_not_le h')
      simp [List.filter_cons, hbne, ih]

theorem filter_orderedInsert_ne (c : ℚ) (s : Score) (hs : ¬ ratAbs s.delta = c)
    (l : List Score) :
    (List.orderedInsert scoreLe s l).filter (fun x => ratAbs x.delta = c) =
      l.filter (fun x => ratAbs x.delta = c) := by
  induction l with
  | nil => simp [List.orderedInsert, hs]
  | cons b l ih =>
    rw [List.orderedInsert]
    by_cases h : scoreLe s b
    · rw [if_pos h]
      simp [List.filter_cons, hs]
    · rw [if_neg h]
      simp [List.filter_cons, ih]

theorem filter_insertionSort_eq (l : List Score) (c : ℚ) :
    (List.insertionSort scoreLe l).filter (fun x => ratAbs x.delta = c) =
      l.filter (fun x => ratAbs x.delta = c) := by
  induction l with
  | nil => rfl
  | cons a l ih =>
    rw [List.insertionSort]
    by_cases ha : ratAbs a.delta = c
    · rw [filter_orderedInsert_eq c a ha, ih]
      simp [List.filter_cons, ha]
    · rw [filter_orderedInsert_ne c a ha, ih]
      simp [List.filter_cons, ha]

/-- C4: the leaderboard update appends the new attempt and stably sorts
ascending by `|delta|` (the sorted list is a permutation of the appended
list; attempts of equal `|delta|` keep their insertion order, stated as
the sort preserving each `|delta|`-class's subsequence), then truncates
to capacity 5; inserting the six attempts with `|delta|` values
0.5, 0.3, 0.9, 0.1, 0.4, 0.2 into an empty leaderboard yields the ordered
deltas 0.1, 0.2, 0.3, 0.4, 0.5 with 0.9 dropped. -/
theorem leaderboard_record_spec :
    (∀ (prev : List Score) (s : Score),
      List.Perm (List.insertionSort scoreLe (prev ++ [s])) (prev ++ [s])) ∧
    (∀ (prev : List Score) (s : Score),
      (record prev s).length = min 5 (prev.length + 1)) ∧
    (∀ (prev : List Score) (s : Score), List.Sorted scoreLe (record prev s)) ∧
    (∀ (l : List Score) (c : ℚ),
      (List.insertionSort scoreLe l).filter (fun x => ratAbs x.delta = c) =
        l.filter (fun x => ratAbs x.delta = c)) ∧
    (([0.5, 0.3, 0.9, 0.1, 0.4, 0.2] : List ℚ).map
        (fun d => ({ finalTime := 17 + d, delta := d } : Score))).foldl record [] =
      [{ finalTime := 17.1, delta := 0.1 }, { finalTime := 17.2, delta := 0.2 },
       { finalTime := 17.3, delta := 0.3 }, { finalTime := 17.4, delta := 0.4 },
       { finalTime := 17.5, delta := 0.5 }] := by
  refine ⟨fun prev s => List.perm_insertionSort scoreLe (prev ++ [s]),
    fun prev s => ?_, fun prev s => ?_, filter_insertionSort_eq, ?_⟩
  · unfold record
    simp [List.length_take, List.length_insertionSort]
  · unfold record
    exact List.Pairwise.sublist (List.take_sublist 5 _)
      (List.sorted_insertionSort scoreLe _)
  · norm_num [record, List.insertionSort, List.orderedInsert, scoreLe, ratAbs,
      Score.mk.injEq]

/-- C5: invoking the stop operation in any state other than `playing`
(`idle` or `stopped`) is a no-op: game state, displayed time, result and
score list are all unchanged. -/
theorem stopTimer_nonplaying_noop (st : AppState)
    (ai : Option GenerateRageMessageOutput)
    (h : st.gameState ≠ GameState.playing) :
    stopTimer st ai = st := by
  unfold stopTimer
  rw [if_neg h]

/-- C5 witness: stopping in the idle state changes nothing. -/
theorem stopTimer_nonplaying_noop_witness :
    stopTimer
      { gameState := GameState.idle, displayedTime := 3,
        result := { finalTime := 0, delta := 0, aiResponse := none },
        scores := [] } none =
      { gameState := GameState.idle, displayedTime := 3,
        result := { finalTime := 0, delta := 0, aiResponse := none },
        scores := [] } :=
  stopTimer_nonplaying_noop _ none (by intro h; exact GameState.noConfusion h)

/-- C6: when the external text-generation call fails, the stop resolves
the result through the deterministic local fallback: the stored response
is exactly `getFallbackMessage delta` (so equal deltas give equal
results), it is non-null (`some`), and the fallback's `message` field is
never the empty string for any delta. -/
theorem stopTimer_failed_ai_fallback (st : AppState)
    (h : st.gameState = GameState.playing) :
    (stopTimer st none).result.aiResponse =
      some (getFallbackMessage (st.displayedTime - 17)) ∧
    ∀ delta : ℚ, (getFallbackMessage delta).message ≠ "" := by
  constructor
  · unfold stopTimer
    rw [if_pos h]
  · intro delta
    rw [getFallbackMessage_message]
    split_ifs <;> decide

/-- C6 witness: a failed call at displayed time 17.5 stores the fallback
result for delta `17.5 - 17`. -/
theorem stopTimer_failed_ai_fallback_witness :
    (stopTimer
        { gameState := GameState.playing, displayedTime := 17.5,
          result := { finalTime := 0, delta := 0, aiResponse := none },
          scores := [] } none).result.aiResponse =
      some (getFallbackMessage ((17.5 : ℚ) - 17)) ∧
    ∀ delta : ℚ, (getFallbackMessage delta).message ≠ "" :=
  stopTimer_failed_ai_fallback _ rfl

/-- C7: a stop performed while playing captures `finalTime` as the
displayed time at the instant of stop — the output of the perturbation
function applied to the true elapsed time, not the true elapsed time —
and `delta` is that `finalTime` minus the target 17. -/
theorem stopTimer_captures_displayedTime (st : AppState)
    (elapsed r1 r2 r3 : ℚ) (ai : Option GenerateRageMessageOutput)
    (h : st.gameState = GameState.playing) :
    (stopTimer (gameLoopTick st elapsed r1 r2 r3) ai).result.finalTime =
      manipulateTime elapsed r1 r2 r3 ∧
    (stopTimer (gameLoopTick st elapsed r1 r2 r3) ai).result.delta =
      manipulateTime elapsed r1 r2 r3 - 17 := by
  have hg : (gameLoopTick st elapsed r1 r2 r3).gameState = GameState.playing := h
  unfold stopTimer
  rw [if_pos hg]
  exact ⟨rfl, rfl⟩

/-- C7 witness: a tick at true elapsed time 12 followed by a stop. -/
theorem stopTimer_captures_displayedTime_witness :
    (stopTimer
        (gameLoopTick
          { gameState := GameState.playing, displayedTime := 0,
            result := { finalTime := 0, delta := 0, aiResponse := none },
            scores := [] } 12 0.5 0.5 0.5) none).result.finalTime =
      manipulateTime 12 0.5 0.5 0.5 ∧
    (stopTimer
        (gameLoopTick
          { gameState := GameState.playing, displayedTime := 0,
            result := { finalTime := 0, delta := 0, aiResponse := none },
            scores := [] } 12 0.5 0.5 0.5) none).result.delta =
      manipulateTime 12 0.5 0.5 0.5 - 17 :=
  stopTimer_captures_displayedTime _ 12 0.5 0.5 0.5 none rfl

theorem isNewBest_iff (old : Option ℚ) (a : ℚ) :
    isNewBest old a = true ↔ strictlyImproves old a := by
  cases old <;> simp [isNewBest, strictlyImproves]

theorem stopTimerFS_lb_any (st : FSState) (uid : String)
    (profile : Option UserProfile) (uname now : String)
    (ai : Option GenerateRageMessageOutput)
    (h : st.gameState = GameState.playing) :
    ((stopTimerFS st uid profile uname now ai).2.any isLeaderboardWrite = true ↔
      (currentNameOf (profile.bind (·.displayName)) uname ≠ "Anonymous" ∧
       isNewBest (profile.bind (·.personalBestAccuracy))
         (ratAbs (st.displayedTime - TARGET_TIME)) = true)) := by
  simp only [stopTimerFS]
  rw [if_pos h]
  by_cases hC : (currentNameOf (profile.bind (·.displayName)) uname ≠ "Anonymous" ∧
      isNewBest (profile.bind (·.personalBestAccuracy))
        (ratAbs (st.displayedTime - TARGET_TIME)) = true)
  · rw [if_pos hC]
    simp [isLeaderboardWrite, hC]
  · rw [if_neg hC]
    simp [isLeaderboardWrite, hC]

theorem stopTimerFS_attempt_any (st : FSState) (uid : String)
    (profile : Option UserProfile) (uname now : String)
    (ai : Option GenerateRageMessageOutput)
    (h : st.gameState = GameState.playing) :
    (stopTimerFS st uid profile uname now ai).2.any isAttemptWrite = true := by
  simp only [stopTimerFS]
  rw [if_pos h]
  simp [isAttemptWrite]

/-- C8: the shared leaderboard row is written only when the new attempt
strictly lowers the identity's stored best `|delta|` (absent best counts
as `Infinity`); when it does not improve, the leaderboard is untouched
while the attempt is still recorded in the per-user history. -/
theorem leaderboard_write_requires_improvement (st : FSState) (uid : String)
    (profile : Option UserProfile) (uname now : String)
    (ai : Option GenerateRageMessageOutput)
    (h : st.gameState = GameState.playing) :
    ((stopTimerFS st uid profile uname now ai).2.any isLeaderboardWrite = true →
      strictlyImproves (profile.bind (·.personalBestAccuracy))
        (ratAbs (st.displayedTime - TARGET_TIME))) ∧
    (¬ strictlyImproves (profile.bind (·.personalBestAccuracy))
        (ratAbs (st.displayedTime - TARGET_TIME)) →
      (stopTimerFS st uid profile uname now ai).2.any isLeaderboardWrite = false ∧
      (stopTimerFS st uid profile uname now ai).2.any isAttemptWrite = true) := by
  have hiff := stopTimerFS_lb_any st uid profile uname now ai h
  refine ⟨fun hw => (isNewBest_iff _ _).mp (hiff.mp hw).2, fun hni => ⟨?_, ?_⟩⟩
  · cases hany : (stopTimerFS st uid profile uname now ai).2.any isLeaderboardWrite with
    | false => rfl
    | true => exact absurd ((isNewBest_iff _ _).mp (hiff.mp hany).2) hni
  · exact stopTimerFS_attempt_any st uid profile uname now ai h

/-- C8 witness: a named player with a stored best of 0.2 stops at
displayed time 17.5 (`|delta|` 0.5, no improvement). -/
theorem leaderboard_write_requires_improvement_witness :
    ((stopTimerFS
        { gameState := GameState.playing, displayedTime := 17.5,
          result := { finalTime := 0, delta := 0, aiResponse := none },
          isAiGenerating := false } "u1"
        (some { displayName := some "Alice", personalBestAccuracy := some 0.2,
                totalAttempts := some 4 }) "Alice" "t0" none).2.any
        isLeaderboardWrite = true →
      strictlyImproves
        ((some { displayName := some "Alice", personalBestAccuracy := some 0.2,
                 totalAttempts := some 4 } : Option UserProfile).bind
          (·.personalBestAccuracy))
        (ratAbs ((17.5 : ℚ) - TARGET_TIME))) ∧
    (¬ strictlyImproves
        ((some { displayName := some "Alice", personalBestAccuracy := some 0.2,
                 totalAttempts := some 4 } : Option UserProfile).bind
          (·.personalBestAccuracy))
        (ratAbs ((17.5 : ℚ) - TARGET_TIME)) →
      ((stopTimerFS
          { gameState := GameState.playing, displayedTime := 17.5,
            result := { finalTime := 0, delta := 0, aiResponse := none },
            isAiGenerating := false } "u1"
          (some { displayName := some "Alice", personalBestAccuracy := some 0.2,
                  totalAttempts := some 4 }) "Alice" "t0" none).2.any
          isLeaderboardWrite = false ∧
       (stopTimerFS
          { gameState := GameState.playing, displayedTime := 17.5,
            result := { finalTime := 0, delta := 0, aiResponse := none },
            isAiGenerating := false } "u1"
          (some { displayName := some "Alice", personalBestAccuracy := some 0.2,
                  totalAttempts := some 4 }) "Alice" "t0" none).2.any
          isAttemptWrite = true)) :=
  leaderboard_write_requires_improvement _ "u1" _ "Alice" "t0" none rfl

/-- C9: when the true elapsed time reaches the 18-second cutoff, the game
loop auto-stops the round: the state becomes `stopped` with the fixed
penalty result (`finalTime` 18, message "YOU DIDN'T EVEN TRY") and no
external effect is issued — in particular the text-generation resolver
is not invoked. -/
theorem gameLoop_auto_stop_cutoff (st : FSState) (elapsed : ℚ)
    (h : st.gameState = GameState.playing) (he : 18 ≤ elapsed) :
    gameLoopFS st elapsed = autoStopTimer st ∧
    (gameLoopFS st elapsed).1.gameState = GameState.stopped ∧
    (gameLoopFS st elapsed).1.result.finalTime = 18 ∧
    (gameLoopFS st elapsed).1.result.aiResponse =
      some { message := "YOU DIDN\x27T EVEN TRY",
             secondaryTaunt := "The timer ran out at 18 seconds.",
             socialProofLine := "You have to actually click to play." } ∧
    (gameLoopFS st elapsed).2 = [] ∧
    (gameLoopFS st elapsed).2.any isCallAI = false := by
  have key : gameLoopFS st elapsed = autoStopTimer st := by
    unfold gameLoopFS
    rw [if_pos he]
  refine ⟨key, ?_, ?_, ?_, ?_, ?_⟩ <;> rw [key] <;> rfl

/-- C9 witness: the cutoff fires at true elapsed time 18 while playing. -/
theorem gameLoop_auto_stop_cutoff_witness :
    gameLoopFS
      { gameState := GameState.playing, displayedTime := 9.3,
        result := { finalTime := 0, delta := 0, aiResponse := none },
        isAiGenerating := false } 18 =
      autoStopTimer
        { gameState := GameState.playing, displayedTime := 9.3,
          result := { finalTime := 0, delta := 0, aiResponse := none },
          isAiGenerating := false } ∧
    (gameLoopFS
      { gameState := GameState.playing, displayedTime := 9.3,
        result := { finalTime := 0, delta := 0, aiResponse := none },
        isAiGenerating := false } 18).1.gameState = GameState.stopped ∧
    (gameLoopFS
      { gameState := GameState.playing, displayedTime := 9.3,
        result := { finalTime := 0, delta := 0, aiResponse := none },
        isAiGenerating := false } 18).1.result.finalTime = 18 ∧
    (gameLoopFS
      { gameState := GameState.playing, displayedTime := 9.3,
        result := { finalTime := 0, delta := 0, aiResponse := none },
        isAiGenerating := false } 18).1.result.aiResponse =
      some { message := "YOU DIDN\x27T EVEN TRY",
             secondaryTaunt := "The timer ran out at 18 seconds.",
             socialProofLine := "You have to actually click to play." } ∧
    (gameLoopFS
      { gameState := GameState.playing, displayedTime := 9.3,
        result := { finalTime := 0, delta := 0, aiResponse := none },
        isAiGenerating := false } 18).2 = [] ∧
    (gameLoopFS
      { gameState := GameState.playing, displayedTime := 9.3,
        result := { finalTime := 0, delta := 0, aiResponse := none },
        isAiGenerating := false } 18).2.any isCallAI = false :=
  gameLoop_auto_stop_cutoff _ 18 rfl (le_refl 18)

theorem foldBest_from_some (ds : List ℚ) (b : ℚ) :
    ∃ m, ds.foldl (fun o d => some (updatedBest o d)) (some b) = some m ∧ m ≤ b := by
  induction ds generalizing b with
  | nil => exact ⟨b, rfl, le_refl b⟩
  | cons a ds ih =>
    obtain ⟨m, hm, hle⟩ := ih (updatedBest (some b) a)
    have hub : updatedBest (some b) a = min b a := rfl
    rw [hub] at hle
    exact ⟨m, by simpa using hm, le_trans hle (min_le_left b a)⟩

theorem foldBest_mem : ∀ (ds : List ℚ) (o : Option ℚ) (d : ℚ), d ∈ ds →
    ∃ m, ds.foldl (fun o d => some (updatedBest o d)) o = some m ∧ m ≤ d
  | [], _, _, hd => absurd hd (List.not_mem_nil _)
  | a :: ds, o, d, hd => by
    rcases List.mem_cons.mp hd with rfl | hd'
    · have hua : updatedBest o d ≤ d := by
        cases o with
        | none => exact le_refl d
        | some b => exact min_le_right b d
      obtain ⟨m, hm, hle⟩ := foldBest_from_some ds (updatedBest o d)
      exact ⟨m, by simpa using hm, le_trans hle hua⟩
    · obtain ⟨m, hm, hle⟩ := foldBest_mem ds (some (updatedBest o a)) d hd'
      exact ⟨m, by simpa using hm, hle⟩

/-- C10: the user-document write of every stop stores
`personalBestAccuracy = min(previous best (Infinity if absent), new |delta|)`;
the stored best never increases (`min b a ≤ b`) and after any sequence of
attempts it is at most the `|delta|` of each completed attempt. -/
theorem personalBest_min_invariant (st : FSState) (uid : String)
    (profile : Option UserProfile) (uname now : String)
    (ai : Option GenerateRageMessageOutput)
    (h : st.gameState = GameState.playing) :
    (userDocOf (stopTimerFS st uid profile uname now ai).2).map
        (fun u => u.personalBestAccuracy) =
      some (updatedBest (profile.bind (·.personalBestAccuracy))
        (ratAbs (st.displayedTime - TARGET_TIME))) ∧
    (∀ a : ℚ, updatedBest none a = a) ∧
    (∀ b a : ℚ, updatedBest (some b) a = min b a ∧
      updatedBest (some b) a ≤ b ∧ updatedBest (some b) a ≤ a) ∧
    (∀ (ds : List ℚ) (d : ℚ), d ∈ ds →
      ∃ m, bestAfter ds = some m ∧ m ≤ d) := by
  refine ⟨?_, fun a => rfl,
    fun b a => ⟨rfl, min_le_left b a, min_le_right b a⟩,
    fun ds d hd => by simpa [bestAfter] using foldBest_mem ds none d hd⟩
  simp only [stopTimerFS]
  rw [if_pos h]
  by_cases hC : (currentNameOf (profile.bind (·.displayName)) uname ≠ "Anonymous" ∧
      isNewBest (profile.bind (·.personalBestAccuracy))
        (ratAbs (st.displayedTime - TARGET_TIME)) = true)
  · rw [if_pos hC]
    simp [userDocOf]
  · rw [if_neg hC]
    simp [userDocOf]

/-- C10 witness: a first attempt (no stored best) at displayed time 17.5
stores `|delta|` 0.5 as the personal best. -/
theorem personalBest_min_invariant_witness :
    (userDocOf (stopTimerFS
        { gameState := GameState.playing, displayedTime := 17.5,
          result := { finalTime := 0, delta := 0, aiResponse := none },
          isAiGenerating := false } "u1" none "Alice" "t0" none).2).map
        (fun u => u.personalBestAccuracy) =
      some (updatedBest ((none : Option UserProfile).bind (·.personalBestAccuracy))
        (ratAbs ((17.5 : ℚ) - TARGET_TIME))) ∧
    (∀ a : ℚ, updatedBest none a = a) ∧
    (∀ b a : ℚ, updatedBest (some b) a = min b a ∧
      updatedBest (some b) a ≤ b ∧ updatedBest (some b) a ≤ a) ∧
    (∀ (ds : List ℚ) (d : ℚ), d ∈ ds →
      ∃ m, bestAfter ds = some m ∧ m ≤ d) :=
  personalBest_min_invariant _ "u1" none "Alice" "t0" none rfl
